import Mathlib

/-!
Verification development for the molecule-evaluator module (`evaluators.py`).

The module defines five evaluator variants (molecular weight, fingerprint
similarity, ROCS shape overlay, Fred docking, CSV lookup table) that score a
candidate molecule against reference data.  The external chemistry toolkits
(RDKit, OpenEye) are opaque collaborators: every toolkit operation the module
calls is modelled as a field of a `Toolkit` (or `FS`) oracle record, and a
molecule is modelled by the only datum the module ever extracts from it — its
canonical SMILES string — together with an extra representation component
(3D coordinates) that the module never reads.  Scores are modelled as `Rat`:
the module does no arithmetic on scores, it only moves literals (`-1.0`,
`1000.0`) and oracle results around, so exact rationals are faithful.

Mutable Python object state becomes explicit state passing: each evaluator
has a `...State` structure and `evaluate` maps a state to a result record
containing the score, the next state, and instrumentation counters (number of
conformer-generation and docking-engine invocations during the call, and the
global `OEThrow` logging level after the call).  In-place toolkit mutation is
state update too: the overlap preparation `prep.Prep(self.ref_mol)` that the
ROCS overlay runs on the stored reference molecule becomes an update of the
evaluator's `ref_mol` field.  Python `dict` becomes an association list with
Python-assignment semantics (`dinsert`); a Python `KeyError` path becomes an
`Option` result; a raising constructor becomes `Except`.
-/

/-- Opaque toolkit constant `oechem.OEErrorLevel_Error` (its numeric value is
irrelevant; only identity matters). -/
def OEErrorLevel_Error : Nat := 5

/-- Opaque toolkit constant `oedocking.OEDockingReturnCode_Success`. -/
def OEDockingReturnCode_Success : Nat := 0

/-- Opaque toolkit constant `oedocking.OEDockingReturnCode_ConformerGenError`;
a distinct enum value from `Success`. -/
def OEDockingReturnCode_ConformerGenError : Nat := 2

/-- An RDKit molecule, as seen by this module: the module only ever extracts
`Chem.MolToSmiles(mol)` from an input molecule, so the model carries the
canonical SMILES plus a representation component (3D coordinates) that the
module never reads. -/
structure Mol where
  canonicalSmiles : String
  coords3D : List (List Rat) := []
deriving DecidableEq

/-- An OpenEye `OEMol`, opaque to this module. -/
structure OEMol where
  data : String
deriving DecidableEq

/-- The empty `OEMol()` produced by the OpenEye default constructor. -/
def OEMol.empty : OEMol := { data := "" }

/-- An OpenEye design unit (prepared receptor), opaque to this module. -/
structure DesignUnit where
  hasReceptor : Bool
  data : String
deriving DecidableEq

/-- An initialized OEDock docking engine bound to a design unit. -/
structure DockEngine where
  du : DesignUnit
deriving DecidableEq

/-- The opaque toolkit operations the module calls, as oracles.  A fit
molecule fed to a 3D operation is always reconstructed by
`OEParseSmiles` from a canonical SMILES string and then conformer-expanded
with a max-conformer budget, so the 3D oracles take the SMILES string and the
budget in place of the `OEMol`. -/
structure Toolkit where
  /-- RDKit canonicalization: `MolToSmiles(MolFromSmiles(s))`. -/
  canon : String → String
  /-- `uru.MolWt` on an RDKit molecule. -/
  molWt : Mol → Rat
  /-- `uru.smi2morgan_fp`: Morgan fingerprint of a SMILES string. -/
  smi2fp : String → Nat
  /-- `uru.mol2morgan_fp`: Morgan fingerprint of an RDKit molecule. -/
  mol2fp : Mol → Nat
  /-- `DataStructs.TanimotoSimilarity` on two fingerprints. -/
  tanimoto : Nat → Nat → Rat
  /-- `omega(mol)`: success of conformer generation for the molecule parsed
  from a SMILES string, given rms threshold, strict-stereo flag, max-conformer
  budget, and the current global `OEThrow` level. -/
  omegaSucceeds : Rat → Bool → Nat → String → Nat → Bool
  /-- `OEOverlapPrep.Prep` on an `OEMol`: the in-place preparation of a
  molecule for overlap (radii, color atoms, hydrogen suppression).  The call
  mutates its argument in place; in state-passing form it maps the molecule
  to its prepared state. -/
  prep : OEMol → OEMol
  /-- Combo Tanimoto of the best ROCS overlay of the conformer-expanded,
  prepped fit molecule (given by SMILES and budget) onto the prepped
  reference `OEMol`. -/
  rocsCombo : OEMol → String → Nat → Rat
  /-- Return code of `dock.DockMultiConformerMolecule` for the
  conformer-expanded fit molecule. -/
  dockCode : DockEngine → String → Nat → Nat
  /-- Docking score extracted from the docked pose via the SD-tag mechanism. -/
  dockScore : DockEngine → String → Nat → Rat

/-- The file system and file-reading toolkit entry points used at
construction time. -/
structure FS where
  /-- `os.path.isfile`. -/
  isfile : String → Bool
  /-- `oemolistream` + `OEReadMolecule`: `some` molecule on success, `none`
  when the file is missing or unreadable (these calls signal failure by their
  return value; they do not raise). -/
  readMol : String → Option OEMol
  /-- `oeifstream.open`: whether the design-unit file can be opened. -/
  openDU : String → Bool
  /-- `OEReadDesignUnit`: the design unit read from an opened stream. -/
  readDU : String → Option DesignUnit
  /-- `pd.read_csv` + column extraction: the `(SMILES, val)` rows, or `none`
  when the file is missing (pandas raises `FileNotFoundError`). -/
  readCSV : String → Option (List (String × Rat))

/-- Errors raised at evaluator construction: a Python `FileNotFoundError`, or
an `OEThrow.Fatal` (process-fatal in the source; modelled as a distinct error
constructor). -/
inductive InitError where
  | fileNotFound (filename : String)
  | fatal (msg : String)
deriving DecidableEq

/-- `true` iff an `Except` result is `.ok` (construction succeeded). -/
def exceptOk {α : Type} (e : Except InitError α) : Bool :=
  match e with
  | .ok _ => true
  | .error _ => false

/-- Python `dict` lookup `d.get(k)` / `d[k]` on an association list. -/
def dlookup (d : List (String × Rat)) (k : String) : Option Rat :=
  match d with
  | [] => none
  | (a, b) :: rest => if a = k then some b else dlookup rest k

/-- Python `dict` assignment `d[k] = v`: replace in place if the key is
present, append otherwise. -/
def dinsert (d : List (String × Rat)) (k : String) (v : Rat) : List (String × Rat) :=
  match d with
  | [] => [(k, v)]
  | (a, b) :: rest => if a = k then (a, v) :: rest else (a, b) :: dinsert rest k v

/-- `Chem.MolToSmiles`: RDKit canonical SMILES of a molecule. -/
def Chem.MolToSmiles (m : Mol) : String := m.canonicalSmiles

/-- `Chem.MolFromSmiles` (composed with the canonicalization the toolkit
performs): the molecule denoted by a SMILES string, carrying its canonical
form and no 3D coordinates. -/
def Chem.MolFromSmiles (tk : Toolkit) (s : String) : Mol :=
  { canonicalSmiles := tk.canon s, coords3D := [] }

/-- `generate_confs(mol, max_confs)`: generate conformers with Omega for the
molecule parsed from SMILES `smi`.  Takes the current global `OEThrow` level
and returns the raw Omega status together with the `OEThrow` level after the
call.  The sequence of shadowing `let`s mirrors the source's mutation of the
global level: save it, set it to `Error` (warnings off), run Omega at that
level, restore the saved level. -/
def generate_confs (tk : Toolkit) (smi : String) (max_confs : Nat)
    (oeThrowLevel0 : Nat) : Bool × Nat :=
  let rms : Rat := 0.5
  let strict_stereo : Bool := false
  let error_level := oeThrowLevel0
  let oeThrowLevel1 := OEErrorLevel_Error
  let status := tk.omegaSucceeds rms strict_stereo max_confs smi oeThrowLevel1
  let oeThrowLevel2 := error_level
  (status, oeThrowLevel2)

/-- `read_design_unit(filename)`: read a design unit and initialize a docking
engine, with the three `OEThrow.Fatal` exits of the source. -/
def read_design_unit (fs : FS) (filename : String) : Except InitError DockEngine :=
  if fs.openDU filename = false then
    .error (.fatal filename)
  else
    match fs.readDU filename with
    | none => .error (.fatal filename)
    | some du =>
      if du.hasReceptor = false then .error (.fatal filename)
      else .ok { du := du }

/-! ### MWEvaluator -/

/-- State of `MWEvaluator`. -/
structure MWState where
  num_evaluations : Nat
deriving DecidableEq

/-- `MWEvaluator()`. -/
def MWEvaluator.mk₀ : MWState := { num_evaluations := 0 }

/-- The read-only `counter` property. -/
def MWEvaluator.counter (st : MWState) : Nat := st.num_evaluations

/-- `MWEvaluator.evaluate(mol)`: increment the counter and return the
molecular weight. -/
def MWEvaluator.evaluate (tk : Toolkit) (st : MWState) (mol : Mol) : Rat × MWState :=
  let st1 : MWState := { num_evaluations := st.num_evaluations + 1 }
  (tk.molWt mol, st1)

/-! ### FPEvaluator -/

/-- State of `FPEvaluator`. -/
structure FPState where
  ref_smiles : String
  ref_fp : Nat
  num_evaluations : Nat
deriving DecidableEq

/-- `FPEvaluator(input_dict)` with `input_dict["query_smiles"]`. -/
def FPEvaluator.init (tk : Toolkit) (query_smiles : String) : FPState :=
  { ref_smiles := query_smiles
    ref_fp := tk.smi2fp query_smiles
    num_evaluations := 0 }

/-- The read-only `counter` property. -/
def FPEvaluator.counter (st : FPState) : Nat := st.num_evaluations

/-- `FPEvaluator.evaluate(rd_mol_in)`: increment the counter and return the
Tanimoto similarity of the input's fingerprint to the reference fingerprint. -/
def FPEvaluator.evaluate (tk : Toolkit) (st : FPState) (rd_mol_in : Mol) : Rat × FPState :=
  let st1 : FPState := { st with num_evaluations := st.num_evaluations + 1 }
  let rd_mol_fp := tk.mol2fp rd_mol_in
  (tk.tanimoto st.ref_fp rd_mol_fp, st1)

/-! ### ROCSEvaluator -/

/-- State of `ROCSEvaluator`. -/
structure ROCSState where
  ref_mol : OEMol
  max_confs : Nat
  score_cache : List (String × Rat)
  num_evaluations : Nat
deriving DecidableEq

/-- Result of one `ROCSEvaluator.evaluate` call: the score, the state after
the call, the number of `generate_confs` invocations made during the call
(instrumentation for the call-count observation), and the global `OEThrow`
level after the call. -/
structure ROCSResult where
  score : Rat
  state : ROCSState
  omegaCalls : Nat
  levelOut : Nat
deriving DecidableEq

/-- `ROCSEvaluator(input_dict)` with `input_dict['query_molfile']`: read the
first molecule of the file as the reference (the read's success flag is
ignored by the source, so a failed read leaves the default-constructed empty
`OEMol`), set `max_confs = 50`, empty cache, zero counter.  The constructor
has no error exit; the `Except` return type records that fact. -/
def ROCSEvaluator.init (fs : FS) (query_molfile : String) : Except InitError ROCSState :=
  let ref_mol :=
    match fs.readMol query_molfile with
    | some m => m
    | none => OEMol.empty
  .ok { ref_mol := ref_mol, max_confs := 50, score_cache := [], num_evaluations := 0 }

/-- The read-only `counter` property. -/
def ROCSEvaluator.counter (st : ROCSState) : Nat := st.num_evaluations

/-- `ROCSEvaluator.set_max_confs(max_confs)`. -/
def ROCSEvaluator.set_max_confs (st : ROCSState) (max_confs : Nat) : ROCSState :=
  { st with max_confs := max_confs }

/-- `ROCSEvaluator.overlay(fit_mol)`: ROCS overlay of the fit molecule
(determined by its SMILES and the conformer budget it was expanded with) onto
the reference molecule.  `prep.Prep(self.ref_mol)` modifies the stored
reference in place — modelled by the `prep` oracle — before `SetupRef` reads
it; the fit molecule's own prep and the best-overlay scoring are the
`rocsCombo` oracle.  Returns the Combo Tanimoto together with the reference
molecule's state after the call. -/
def ROCSEvaluator.overlay (tk : Toolkit) (ref_mol : OEMol) (fit_smi : String)
    (max_confs : Nat) : Rat × OEMol :=
  let ref1 := tk.prep ref_mol
  (tk.rocsCombo ref1 fit_smi max_confs, ref1)

/-- `ROCSEvaluator.evaluate(rd_mol_in)`: increment the counter; canonicalize
the input; on a cache hit return the cached score; on a miss rebuild the
molecule from the canonical SMILES, generate conformers, run the overlay
(which also preps the stored reference molecule in place) or take the `-1.0`
sentinel if conformer generation failed, store the score in the cache, and
return it. -/
def ROCSEvaluator.evaluate (tk : Toolkit) (st : ROCSState) (rd_mol_in : Mol)
    (oeThrowLevel : Nat) : ROCSResult :=
  let st1 : ROCSState := { st with num_evaluations := st.num_evaluations + 1 }
  let smi := Chem.MolToSmiles rd_mol_in
  match dlookup st1.score_cache smi with
  | some arc_tc =>
    { score := arc_tc, state := st1, omegaCalls := 0, levelOut := oeThrowLevel }
  | none =>
    let g := generate_confs tk smi st1.max_confs oeThrowLevel
    if g.1 then
      let ov := ROCSEvaluator.overlay tk st1.ref_mol smi st1.max_confs
      { score := ov.1
        state := { st1 with ref_mol := ov.2, score_cache := dinsert st1.score_cache smi ov.1 }
        omegaCalls := 1
        levelOut := g.2 }
    else
      { score := -1
        state := { st1 with score_cache := dinsert st1.score_cache smi (-1) }
        omegaCalls := 1
        levelOut := g.2 }

/-! ### LookupEvaluator -/

/-- State of `LookupEvaluator`. -/
structure LookupState where
  ref_dict : List (String × Rat)
  num_evaluations : Nat
deriving DecidableEq

/-- The dict comprehension `dict([(a, b) for a, b in ref_df[...].values])`:
the CSV's SMILES strings are stored verbatim as keys, with Python-dict
duplicate handling (a later row with the same key overwrites an earlier one). -/
def LookupEvaluator.mkRefDict (rows : List (String × Rat)) : List (String × Rat) :=
  rows.foldl (fun d p => dinsert d p.1 p.2) []

/-- `LookupEvaluator(input_dictionary)` with `input_dictionary['ref_filename']`:
read the CSV (raising `FileNotFoundError` when it is missing) and build the
lookup dict. -/
def LookupEvaluator.init (fs : FS) (ref_filename : String) : Except InitError LookupState :=
  match fs.readCSV ref_filename with
  | none => .error (.fileNotFound ref_filename)
  | some rows => .ok { ref_dict := LookupEvaluator.mkRefDict rows, num_evaluations := 0 }

/-- The read-only `counter` property. -/
def LookupEvaluator.counter (st : LookupState) : Nat := st.num_evaluations

/-- `LookupEvaluator.evaluate(mol)`: increment the counter, canonicalize, and
look the canonical SMILES up in the dict; `none` models the `KeyError`
raised when the key is absent (the counter increment precedes the lookup and
survives the error). -/
def LookupEvaluator.evaluate (st : LookupState) (mol : Mol) : Option Rat × LookupState :=
  let st1 : LookupState := { st with num_evaluations := st.num_evaluations + 1 }
  let smi := Chem.MolToSmiles mol
  (dlookup st1.ref_dict smi, st1)

/-! ### FredEvaluator -/

/-- State of `FredEvaluator`. -/
structure FredState where
  dock : DockEngine
  num_evaluations : Nat
  max_confs : Nat
deriving DecidableEq

/-- Result of one `FredEvaluator.evaluate` call: the score, the state after
the call, the numbers of `generate_confs` and `DockMultiConformerMolecule`
invocations made during the call (instrumentation), the internal docking
return code, and the global `OEThrow` level after the call. -/
structure FredResult where
  score : Rat
  state : FredState
  omegaCalls : Nat
  dockCalls : Nat
  retCode : Nat
  levelOut : Nat
deriving DecidableEq

/-- `FredEvaluator(input_dict)` with `input_dict["design_unit_file"]`: raise
`FileNotFoundError` when the path is not a file, then read the design unit
and initialize the docking engine. -/
def FredEvaluator.init (fs : FS) (design_unit_file : String) : Except InitError FredState :=
  if fs.isfile design_unit_file = false then
    .error (.fileNotFound design_unit_file)
  else
    match read_design_unit fs design_unit_file with
    | .error e => .error e
    | .ok dock => .ok { dock := dock, num_evaluations := 0, max_confs := 50 }

/-- The read-only `counter` property. -/
def FredEvaluator.counter (st : FredState) : Nat := st.num_evaluations

/-- `FredEvaluator.set_max_confs(max_confs)`. -/
def FredEvaluator.set_max_confs (st : FredState) (max_confs : Nat) : FredState :=
  { st with max_confs := max_confs }

/-- `FredEvaluator.evaluate(mol)`: increment the counter; rebuild the molecule
from its canonical SMILES; generate conformers; if that succeeded, dock the
conformer ensemble, otherwise use the `ConformerGenError` return code without
invoking the docking engine; start from the fallback score `1000.0` and
replace it by the extracted docking score only on the `Success` return code. -/
def FredEvaluator.evaluate (tk : Toolkit) (st : FredState) (mol : Mol)
    (oeThrowLevel : Nat) : FredResult :=
  let st1 : FredState := { st with num_evaluations := st.num_evaluations + 1 }
  let smi := Chem.MolToSmiles mol
  let g := generate_confs tk smi st1.max_confs oeThrowLevel
  let confs_ok := g.1
  let ret_code : Nat :=
    if confs_ok then tk.dockCode st1.dock smi st1.max_confs
    else OEDockingReturnCode_ConformerGenError
  let dockCalls : Nat := if confs_ok then 1 else 0
  let score : Rat :=
    if ret_code = OEDockingReturnCode_Success then tk.dockScore st1.dock smi st1.max_confs
    else 1000
  { score := score
    state := st1
    omegaCalls := 1
    dockCalls := dockCalls
    retCode := ret_code
    levelOut := g.2 }

/-! ### Association-list lemmas (Python dict semantics) -/

/-- Looking up the just-assigned key finds the just-assigned value. -/
theorem dlookup_dinsert_self (d : List (String × Rat)) (k : String) (v : Rat) :
    dlookup (dinsert d k v) k = some v := by
  induction d with
  | nil => simp [dinsert, dlookup]
  | cons p rest ih =>
    obtain ⟨a, b⟩ := p
    by_cases h : a = k
    · simp [dinsert, dlookup, h]
    · simp [dinsert, dlookup, h, ih]

/-- Assigning one key leaves every other key's binding unchanged. -/
theorem dlookup_dinsert_ne (d : List (String × Rat)) (k k2 : String) (v : Rat)
    (h : k2 ≠ k) : dlookup (dinsert d k v) k2 = dlookup d k2 := by
  have hk : ¬ k = k2 := fun hh => h hh.symm
  induction d with
  | nil => simp [dinsert, dlookup, hk]
  | cons p rest ih =>
    obtain ⟨a, b⟩ := p
    by_cases ha : a = k
    · subst ha
      simp [dinsert, dlookup, hk]
    · simp [dinsert, dlookup, ha, ih]

/-! ### Claims -/

/-- C1: for every evaluator variant (MolecularWeight, FingerprintSimilarity,
ShapeOverlay, Docking, LookupTable) and every call to `evaluate(mol)`, the
evaluator's counter is exactly one greater after the call than before it, on
every path: cache hit, cache miss, sentinel-score failure, and the
LookupTable failing-lookup path (the increment precedes the lookup). -/
theorem C1_counter_increments_once (tk : Toolkit) (mwSt : MWState) (fpSt : FPState)
    (rSt : ROCSState) (lSt : LookupState) (fSt : FredState) (mol : Mol) (lvl : Nat) :
    MWEvaluator.counter (MWEvaluator.evaluate tk mwSt mol).2 = MWEvaluator.counter mwSt + 1 ∧
    FPEvaluator.counter (FPEvaluator.evaluate tk fpSt mol).2 = FPEvaluator.counter fpSt + 1 ∧
    ROCSEvaluator.counter (ROCSEvaluator.evaluate tk rSt mol lvl).state =
      ROCSEvaluator.counter rSt + 1 ∧
    LookupEvaluator.counter (LookupEvaluator.evaluate lSt mol).2 =
      LookupEvaluator.counter lSt + 1 ∧
    FredEvaluator.counter (FredEvaluator.evaluate tk fSt mol lvl).state =
      FredEvaluator.counter fSt + 1 := by
  refine ⟨rfl, rfl, ?_, rfl, rfl⟩
  unfold ROCSEvaluator.evaluate
  dsimp only
  split
  · rfl
  · split <;> rfl

/-- C6: the shared conformer-generation routine restores the toolkit's prior
global logging level on every exit path (success and failure alike, the
result being a total function of the inputs), and returns the toolkit's raw
boolean Omega status — computed with warnings suppressed at the `Error`
level — without raising on geometry failure. -/
theorem C6_generate_confs_scoped_logging (tk : Toolkit) (smi : String)
    (max_confs lvl : Nat) :
    (generate_confs tk smi max_confs lvl).2 = lvl ∧
    (generate_confs tk smi max_confs lvl).1 =
      tk.omegaSucceeds 0.5 false max_confs smi OEErrorLevel_Error :=
  ⟨rfl, rfl⟩

/-- C7 (amended): the stored reference molecule is unchanged by cache-hit
calls and by cache-miss calls whose conformer generation fails (the overlay
procedure is not run); a cache-miss call that runs the overlay changes the
stored reference exactly by the in-place overlap preparation
`prep.Prep(self.ref_mol)`, replacing it with its prepared form. -/
theorem C7_ref_mol_changed_only_by_prep (tk : Toolkit) (st : ROCSState) (mol : Mol)
    (lvl : Nat) :
    (dlookup st.score_cache (Chem.MolToSmiles mol) ≠ none →
      (ROCSEvaluator.evaluate tk st mol lvl).state.ref_mol = st.ref_mol) ∧
    (dlookup st.score_cache (Chem.MolToSmiles mol) = none →
      (generate_confs tk (Chem.MolToSmiles mol) st.max_confs lvl).1 = false →
      (ROCSEvaluator.evaluate tk st mol lvl).state.ref_mol = st.ref_mol) ∧
    (dlookup st.score_cache (Chem.MolToSmiles mol) = none →
      (generate_confs tk (Chem.MolToSmiles mol) st.max_confs lvl).1 = true →
      (ROCSEvaluator.evaluate tk st mol lvl).state.ref_mol = tk.prep st.ref_mol) := by
  unfold ROCSEvaluator.evaluate
  dsimp only
  refine ⟨?_, ?_, ?_⟩
  · intro hsome
    cases hl : dlookup st.score_cache (Chem.MolToSmiles mol) with
    | some w => simp only [hl]
    | none => exact absurd hl hsome
  · intro hnone hfail
    simp [hnone, hfail]
  · intro hnone hok
    simp [hnone, hok, ROCSEvaluator.overlay]

/-- C2: for a given ShapeOverlay evaluator instance, a cached entry is never
overwritten or evicted by an `evaluate` call, and two consecutive `evaluate`
calls on molecules with the same canonical SMILES return the identical score,
the second call making zero conformer-generation invocations. -/
theorem C2_rocs_cache_idempotent (tk : Toolkit) (st : ROCSState) (m1 m2 : Mol)
    (lvl1 lvl2 : Nat) (key : String) (v : Rat)
    (hkey : dlookup st.score_cache key = some v)
    (hsmi : Chem.MolToSmiles m1 = Chem.MolToSmiles m2) :
    dlookup (ROCSEvaluator.evaluate tk st m1 lvl1).state.score_cache key = some v ∧
    (ROCSEvaluator.evaluate tk (ROCSEvaluator.evaluate tk st m1 lvl1).state m2 lvl2).score =
      (ROCSEvaluator.evaluate tk st m1 lvl1).score ∧
    (ROCSEvaluator.evaluate tk (ROCSEvaluator.evaluate tk st m1 lvl1).state m2 lvl2).omegaCalls =
      0 := by
  unfold ROCSEvaluator.evaluate
  dsimp only
  rw [← hsmi]
  cases h : dlookup st.score_cache (Chem.MolToSmiles m1) with
  | some w =>
    simp only [h]
    refine ⟨hkey, by trivial, by trivial⟩
  | none =>
    have hne : key ≠ Chem.MolToSmiles m1 := by
      intro e
      rw [e, h] at hkey
      cases hkey
    simp only [h]
    split
    · simp only [dlookup_dinsert_self]
      refine ⟨(dlookup_dinsert_ne _ _ _ _ hne).trans hkey, by trivial, by trivial⟩
    · simp only [dlookup_dinsert_self]
      refine ⟨(dlookup_dinsert_ne _ _ _ _ hne).trans hkey, by trivial, by trivial⟩

/-- C3: for the ShapeOverlay evaluator, when conformer generation fails for an
uncached input, `evaluate` returns exactly `-1.0` (a total function: no
exception on this path) after storing the `-1.0` sentinel in the score cache
under the input's canonical key. -/
theorem C3_rocs_failure_sentinel (tk : Toolkit) (st : ROCSState) (mol : Mol) (lvl : Nat)
    (hmiss : dlookup st.score_cache (Chem.MolToSmiles mol) = none)
    (hfail : (generate_confs tk (Chem.MolToSmiles mol) st.max_confs lvl).1 = false) :
    (ROCSEvaluator.evaluate tk st mol lvl).score = -1 ∧
    dlookup (ROCSEvaluator.evaluate tk st mol lvl).state.score_cache
      (Chem.MolToSmiles mol) = some (-1) := by
  unfold ROCSEvaluator.evaluate
  dsimp only
  simp only [hmiss, hfail, if_false, Bool.false_eq_true, dlookup_dinsert_self]
  refine ⟨by trivial, by trivial⟩

/-! ### Concrete fixtures for the closed witnesses -/

/-- Canonical SMILES of ethanol. -/
def sCCO : String := "CCO"

/-- A non-canonical SMILES string denoting ethanol. -/
def sOCC : String := "OCC"

/-- Canonical SMILES of benzene. -/
def sBenzene : String := "c1ccccc1"

/-- A path that exists in no fixture file system. -/
def sMissing : String := "no_such_file.sdf"

/-- A design-unit fixture path. -/
def sDU : String := "receptor.oedu"

/-- A CSV fixture path. -/
def sCSV : String := "table.csv"

/-- A concrete toolkit fixture whose conformer generation always fails. -/
def tkFail : Toolkit where
  canon := fun s => s
  molWt := fun _ => 18
  smi2fp := fun _ => 1
  mol2fp := fun _ => 1
  tanimoto := fun _ _ => 1
  omegaSucceeds := fun _ _ _ _ _ => false
  prep := fun m => m
  rocsCombo := fun _ _ _ => 1
  dockCode := fun _ _ _ => OEDockingReturnCode_Success
  dockScore := fun _ _ _ => -8

/-- An ethanol molecule carrying 3D coordinates. -/
def molCCOa : Mol := { canonicalSmiles := sCCO, coords3D := [[0, 0, 0], [1, 0, 0]] }

/-- An ethanol molecule without coordinates. -/
def molCCOb : Mol := { canonicalSmiles := sCCO }

/-- A ROCS evaluator state with one cached entry. -/
def rocsStW : ROCSState :=
  { ref_mol := { data := sBenzene }, max_confs := 50,
    score_cache := [(sBenzene, 7)], num_evaluations := 3 }

/-- A fresh ROCS evaluator state with an empty cache. -/
def rocsStEmpty : ROCSState :=
  { ref_mol := { data := sBenzene }, max_confs := 50,
    score_cache := [], num_evaluations := 0 }

/-- Witness for C2 at concrete inputs: a populated cache entry survives an
`evaluate` call, and a repeated evaluation of the same canonical structure
returns the same score with no conformer generation. -/
theorem C2_rocs_cache_idempotent_witness :
    dlookup rocsStW.score_cache sBenzene = some 7 ∧
    Chem.MolToSmiles molCCOa = Chem.MolToSmiles molCCOb ∧
    (dlookup (ROCSEvaluator.evaluate tkFail rocsStW molCCOa 4).state.score_cache sBenzene =
        some 7 ∧
      (ROCSEvaluator.evaluate tkFail (ROCSEvaluator.evaluate tkFail rocsStW molCCOa 4).state
            molCCOb 4).score =
        (ROCSEvaluator.evaluate tkFail rocsStW molCCOa 4).score ∧
      (ROCSEvaluator.evaluate tkFail (ROCSEvaluator.evaluate tkFail rocsStW molCCOa 4).state
            molCCOb 4).omegaCalls = 0) :=
  ⟨by decide, rfl,
    C2_rocs_cache_idempotent tkFail rocsStW molCCOa molCCOb 4 4 sBenzene 7 (by decide) rfl⟩

/-- Witness for C3 at concrete inputs: a fresh evaluator and a toolkit whose
conformer generation fails yield the `-1.0` sentinel, cached. -/
theorem C3_rocs_failure_sentinel_witness :
    dlookup rocsStEmpty.score_cache (Chem.MolToSmiles molCCOb) = none ∧
    (generate_confs tkFail (Chem.MolToSmiles molCCOb) rocsStEmpty.max_confs 4).1 = false ∧
    ((ROCSEvaluator.evaluate tkFail rocsStEmpty molCCOb 4).score = -1 ∧
      dlookup (ROCSEvaluator.evaluate tkFail rocsStEmpty molCCOb 4).state.score_cache
        (Chem.MolToSmiles molCCOb) = some (-1)) :=
  ⟨rfl, rfl, C3_rocs_failure_sentinel tkFail rocsStEmpty molCCOb 4 rfl rfl⟩

/-- C4: the Docking evaluator returns exactly `1000.0` on every non-success
docking return code — in particular when conformer generation fails, in which
case the docking engine is not invoked and the conformer-failure sentinel
code is used — and returns the genuine docking score only on the success
return code. -/
theorem C4_fred_fallback_score (tk : Toolkit) (st : FredState) (mol : Mol) (lvl : Nat) :
    ((generate_confs tk (Chem.MolToSmiles mol) st.max_confs lvl).1 = false →
      (FredEvaluator.evaluate tk st mol lvl).score = 1000 ∧
      (FredEvaluator.evaluate tk st mol lvl).dockCalls = 0 ∧
      (FredEvaluator.evaluate tk st mol lvl).retCode =
        OEDockingReturnCode_ConformerGenError) ∧
    ((FredEvaluator.evaluate tk st mol lvl).retCode ≠ OEDockingReturnCode_Success →
      (FredEvaluator.evaluate tk st mol lvl).score = 1000) ∧
    ((generate_confs tk (Chem.MolToSmiles mol) st.max_confs lvl).1 = true →
      tk.dockCode st.dock (Chem.MolToSmiles mol) st.max_confs =
        OEDockingReturnCode_Success →
      (FredEvaluator.evaluate tk st mol lvl).score =
        tk.dockScore st.dock (Chem.MolToSmiles mol) st.max_confs) := by
  unfold FredEvaluator.evaluate
  dsimp only
  refine ⟨?_, ?_, ?_⟩
  · intro hfail
    simp [hfail, OEDockingReturnCode_ConformerGenError, OEDockingReturnCode_Success]
  · intro hne
    rw [if_neg hne]
  · intro hok hsucc
    simp [hok, hsucc]

/-- C8: for the ShapeOverlay and Docking evaluators, the result of `evaluate`
depends on the input molecule only through its canonical SMILES string: two
inputs with equal canonical SMILES (for instance, differing in 3D
coordinates) produce identical results from the same evaluator state. -/
theorem C8_score_canonical_smiles_only (tk : Toolkit) (rSt : ROCSState)
    (fSt : FredState) (m1 m2 : Mol) (lvl : Nat)
    (h : Chem.MolToSmiles m1 = Chem.MolToSmiles m2) :
    ROCSEvaluator.evaluate tk rSt m1 lvl = ROCSEvaluator.evaluate tk rSt m2 lvl ∧
    FredEvaluator.evaluate tk fSt m1 lvl = FredEvaluator.evaluate tk fSt m2 lvl := by
  unfold ROCSEvaluator.evaluate FredEvaluator.evaluate
  rw [h]
  exact ⟨rfl, rfl⟩

/-- C9: the LookupTable evaluator returns the exact stored value when the
canonical SMILES of the input is a key of the table, and raises a lookup
error (modelled as `none`) if and only if that canonical SMILES is absent —
exact string match, no fallback. -/
theorem C9_lookup_exact_match (st : LookupState) (mol : Mol) :
    (∀ v : Rat, dlookup st.ref_dict (Chem.MolToSmiles mol) = some v →
      (LookupEvaluator.evaluate st mol).1 = some v) ∧
    ((LookupEvaluator.evaluate st mol).1 = none ↔
      dlookup st.ref_dict (Chem.MolToSmiles mol) = none) := by
  unfold LookupEvaluator.evaluate
  dsimp only
  exact ⟨fun v hv => hv, Iff.rfl⟩

/-- C10: the LookupTable evaluator stores the CSV's SMILES strings verbatim as
keys, and a row whose SMILES is not in canonical form is never matched: every
input molecule presents its canonical SMILES at lookup time, so a
non-canonical key misses even when it denotes the same molecule as the input
(same canonical form). -/
theorem C10_lookup_keys_not_canonicalized (tk : Toolkit) (k s : String) (v : Rat)
    (hnc : tk.canon k ≠ k) (hsame : tk.canon s = tk.canon k) :
    dlookup (LookupEvaluator.mkRefDict [(k, v)]) k = some v ∧
    (LookupEvaluator.evaluate
        { ref_dict := LookupEvaluator.mkRefDict [(k, v)], num_evaluations := 0 }
        (Chem.MolFromSmiles tk s)).1 = none := by
  constructor
  · simp [LookupEvaluator.mkRefDict, dinsert, dlookup]
  · unfold LookupEvaluator.evaluate
    dsimp only
    have hs : Chem.MolToSmiles (Chem.MolFromSmiles tk s) = tk.canon s := rfl
    rw [hs, hsame]
    have hk : ¬ k = tk.canon k := fun e => hnc e.symm
    simp [LookupEvaluator.mkRefDict, dinsert, dlookup, hk]

/-- A file system fixture on which every path is missing: nothing is a file,
no molecule, design unit, or CSV can be read. -/
def fsMissing : FS where
  isfile := fun _ => false
  readMol := fun _ => none
  openDU := fun _ => false
  readDU := fun _ => none
  readCSV := fun _ => none

/-- C5 counterexample: the claim asserts that ShapeOverlay construction with a
missing `query_molfile` fails at construction, but `ROCSEvaluator.__init__`
never checks the file or the result of the reference read (the return value
of `OEReadMolecule` is ignored): on a file system where the path is missing,
construction still succeeds. -/
theorem C5_counterexample :
    fsMissing.isfile sMissing = false ∧
    fsMissing.readMol sMissing = none ∧
    exceptOk (ROCSEvaluator.init fsMissing sMissing) = true :=
  ⟨rfl, rfl, rfl⟩

/-- C5 (amended): Docking construction with a nonexistent `design_unit_file`
raises a file-not-found error before any evaluation, and LookupTable
construction with a missing CSV likewise raises at construction; but
ShapeOverlay construction performs no validation of `query_molfile` — with a
missing or unreadable file it completes successfully (leaving the
default-constructed empty reference molecule). -/
theorem C5_construction_errors_amended (fs : FS) (duf csvf qf : String)
    (hdu : fs.isfile duf = false) (hcsv : fs.readCSV csvf = none) :
    FredEvaluator.init fs duf = .error (.fileNotFound duf) ∧
    LookupEvaluator.init fs csvf = .error (.fileNotFound csvf) ∧
    exceptOk (ROCSEvaluator.init fs qf) = true := by
  refine ⟨?_, ?_, rfl⟩
  · unfold FredEvaluator.init
    simp [hdu]
  · unfold LookupEvaluator.init
    rw [hcsv]

/-- Witness for the amended C5 at concrete inputs. -/
theorem C5_construction_errors_amended_witness :
    fsMissing.isfile sDU = false ∧
    fsMissing.readCSV sCSV = none ∧
    (FredEvaluator.init fsMissing sDU = .error (.fileNotFound sDU) ∧
      LookupEvaluator.init fsMissing sCSV = .error (.fileNotFound sCSV) ∧
      exceptOk (ROCSEvaluator.init fsMissing sMissing) = true) :=
  ⟨rfl, rfl, C5_construction_errors_amended fsMissing sDU sCSV sMissing rfl rfl⟩

/-- A docking-engine state fixture. -/
def fredStW : FredState :=
  { dock := { du := { hasReceptor := true, data := sDU } },
    num_evaluations := 0, max_confs := 50 }

/-- A concrete toolkit fixture whose conformer generation succeeds and whose
docking engine reports success. -/
def tkDockOk : Toolkit where
  canon := fun s => s
  molWt := fun _ => 18
  smi2fp := fun _ => 1
  mol2fp := fun _ => 1
  tanimoto := fun _ _ => 1
  omegaSucceeds := fun _ _ _ _ _ => true
  prep := fun m => m
  rocsCombo := fun _ _ _ => 1
  dockCode := fun _ _ _ => OEDockingReturnCode_Success
  dockScore := fun _ _ _ => -8

/-- A concrete toolkit fixture whose conformer generation succeeds but whose
docking engine reports a non-success return code. -/
def tkDockBad : Toolkit where
  canon := fun s => s
  molWt := fun _ => 18
  smi2fp := fun _ => 1
  mol2fp := fun _ => 1
  tanimoto := fun _ _ => 1
  omegaSucceeds := fun _ _ _ _ _ => true
  prep := fun m => m
  rocsCombo := fun _ _ _ => 1
  dockCode := fun _ _ _ => 3
  dockScore := fun _ _ _ => -8

/-- Witness for C4 at concrete inputs, exercising all three paths: conformer
failure (no docking call, sentinel code, score 1000), docking non-success
(score 1000), and docking success (genuine score). -/
theorem C4_fred_fallback_score_witness :
    (generate_confs tkFail (Chem.MolToSmiles molCCOb) fredStW.max_confs 4).1 = false ∧
    ((FredEvaluator.evaluate tkFail fredStW molCCOb 4).score = 1000 ∧
      (FredEvaluator.evaluate tkFail fredStW molCCOb 4).dockCalls = 0 ∧
      (FredEvaluator.evaluate tkFail fredStW molCCOb 4).retCode =
        OEDockingReturnCode_ConformerGenError) ∧
    (FredEvaluator.evaluate tkDockBad fredStW molCCOb 4).retCode ≠
      OEDockingReturnCode_Success ∧
    (FredEvaluator.evaluate tkDockBad fredStW molCCOb 4).score = 1000 ∧
    (FredEvaluator.evaluate tkDockOk fredStW molCCOb 4).score =
      tkDockOk.dockScore fredStW.dock (Chem.MolToSmiles molCCOb) fredStW.max_confs :=
  ⟨rfl, (C4_fred_fallback_score tkFail fredStW molCCOb 4).1 rfl, by decide,
    (C4_fred_fallback_score tkDockBad fredStW molCCOb 4).2.1 (by decide),
    (C4_fred_fallback_score tkDockOk fredStW molCCOb 4).2.2 rfl rfl⟩

/-- Witness for C8 at concrete inputs: two ethanol molecules, one with 3D
coordinates and one without, evaluate identically. -/
theorem C8_score_canonical_smiles_only_witness :
    Chem.MolToSmiles molCCOa = Chem.MolToSmiles molCCOb ∧
    (ROCSEvaluator.evaluate tkDockOk rocsStEmpty molCCOa 4 =
        ROCSEvaluator.evaluate tkDockOk rocsStEmpty molCCOb 4 ∧
      FredEvaluator.evaluate tkDockOk fredStW molCCOa 4 =
        FredEvaluator.evaluate tkDockOk fredStW molCCOb 4) :=
  ⟨rfl, C8_score_canonical_smiles_only tkDockOk rocsStEmpty fredStW molCCOa molCCOb 4 rfl⟩

/-- Molecule fixture: benzene, absent from the lookup fixture table. -/
def molBenzene : Mol := { canonicalSmiles := sBenzene }

/-- A lookup-table state fixture holding one row `(CCO, 5)`. -/
def lookupStW : LookupState :=
  { ref_dict := LookupEvaluator.mkRefDict [(sCCO, 5)], num_evaluations := 0 }

/-- Witness for C9 at concrete inputs: the table `(CCO, 5)` yields `5.0` for
an ethanol input and a lookup error for a benzene input. -/
theorem C9_lookup_exact_match_witness :
    dlookup lookupStW.ref_dict (Chem.MolToSmiles molCCOb) = some 5 ∧
    (LookupEvaluator.evaluate lookupStW molCCOb).1 = some 5 ∧
    (LookupEvaluator.evaluate lookupStW molBenzene).1 = none :=
  ⟨by decide, (C9_lookup_exact_match lookupStW molCCOb).1 5 (by decide),
    (C9_lookup_exact_match lookupStW molBenzene).2.mpr (by decide)⟩

/-- A toolkit fixture whose canonicalization maps the non-canonical ethanol
SMILES `OCC` to the canonical `CCO` and fixes every other string. -/
def tkCanon : Toolkit where
  canon := fun s => if s = sOCC then sCCO else s
  molWt := fun _ => 18
  smi2fp := fun _ => 1
  mol2fp := fun _ => 1
  tanimoto := fun _ _ => 1
  omegaSucceeds := fun _ _ _ _ _ => true
  prep := fun m => m
  rocsCombo := fun _ _ _ => 1
  dockCode := fun _ _ _ => OEDockingReturnCode_Success
  dockScore := fun _ _ _ => -8

/-- Witness for C10 at concrete inputs: a table whose single row carries the
non-canonical ethanol SMILES `OCC` stores that key verbatim, yet an ethanol
input (canonical SMILES `CCO`, the same molecule) misses it. -/
theorem C10_lookup_keys_not_canonicalized_witness :
    tkCanon.canon sOCC ≠ sOCC ∧
    tkCanon.canon sCCO = tkCanon.canon sOCC ∧
    (dlookup (LookupEvaluator.mkRefDict [(sOCC, 5)]) sOCC = some 5 ∧
      (LookupEvaluator.evaluate
          { ref_dict := LookupEvaluator.mkRefDict [(sOCC, 5)], num_evaluations := 0 }
          (Chem.MolFromSmiles tkCanon sCCO)).1 = none) :=
  ⟨by decide, by decide,
    C10_lookup_keys_not_canonicalized tkCanon sOCC sCCO 5 (by decide) (by decide)⟩

/-- Marker prefix that the fixture preparation prepends to a molecule. -/
def sPrepped : String := "prepped:"

/-- A toolkit fixture whose conformer generation succeeds and whose overlap
preparation visibly changes the molecule it is applied to. -/
def tkPrep : Toolkit where
  canon := fun s => s
  molWt := fun _ => 18
  smi2fp := fun _ => 1
  mol2fp := fun _ => 1
  tanimoto := fun _ _ => 1
  omegaSucceeds := fun _ _ _ _ _ => true
  prep := fun m => { data := sPrepped ++ m.data }
  rocsCombo := fun _ _ _ => 1
  dockCode := fun _ _ _ => OEDockingReturnCode_Success
  dockScore := fun _ _ _ => -8

/-- C7 counterexample: the claim asserts that no `evaluate` call changes the
stored reference molecule, but a cache-miss call that runs the overlay
applies the in-place overlap preparation `prep.Prep(self.ref_mol)` to it: at
this concrete input the stored reference after the call differs from the
reference loaded at construction. -/
theorem C7_counterexample :
    (ROCSEvaluator.evaluate tkPrep rocsStEmpty molCCOb 4).state.ref_mol ≠
      rocsStEmpty.ref_mol := by decide

/-- Witness for the amended C7 at concrete inputs, exercising all three
paths: a cache hit and a conformer-generation failure leave the reference
untouched, and a cache miss that runs the overlay replaces it with its
prepared form. -/
theorem C7_ref_mol_changed_only_by_prep_witness :
    dlookup rocsStW.score_cache (Chem.MolToSmiles molBenzene) ≠ none ∧
    (ROCSEvaluator.evaluate tkPrep rocsStW molBenzene 4).state.ref_mol =
      rocsStW.ref_mol ∧
    dlookup rocsStEmpty.score_cache (Chem.MolToSmiles molCCOb) = none ∧
    (generate_confs tkFail (Chem.MolToSmiles molCCOb) rocsStEmpty.max_confs 4).1 = false ∧
    (ROCSEvaluator.evaluate tkFail rocsStEmpty molCCOb 4).state.ref_mol =
      rocsStEmpty.ref_mol ∧
    (generate_confs tkPrep (Chem.MolToSmiles molCCOb) rocsStEmpty.max_confs 4).1 = true ∧
    (ROCSEvaluator.evaluate tkPrep rocsStEmpty molCCOb 4).state.ref_mol =
      tkPrep.prep rocsStEmpty.ref_mol :=
  ⟨by decide,
    (C7_ref_mol_changed_only_by_prep tkPrep rocsStW molBenzene 4).1 (by decide),
    rfl, rfl,
    (C7_ref_mol_changed_only_by_prep tkFail rocsStEmpty molCCOb 4).2.1 rfl rfl,
    rfl,
    (C7_ref_mol_changed_only_by_prep tkPrep rocsStEmpty molCCOb 4).2.2 rfl rfl⟩
